import Mathlib

/-!
Shallow embedding of src/scripts/k8s-app-health-checker.py, the one-shot
health-check utility of the wisecow repository, together with theorems
settling the specification claims about it.

Modelling conventions:
* Python strings are Lean String values; the Python substring test
  (needle in hay) is strContains; str.lower is pyLower (ASCII, which covers
  every string the claims exercise).
* Python dicts with optionally-present keys become structures with Option
  fields; dict.get(key, default) is Option.getD.
* The outside world (HTTP responses, raised exceptions, the kubectl
  subprocess result, the parsed JSON) is an explicit inductive input to each
  check function, so each except-branch of the source is one constructor.
* Latencies are rationals; Python round(x, 3) is round3 (its behaviour on
  exact half-thousandth ties differs from float banker rounding, which no
  claim touches: every claim compares only the stored rounded value).
-/

/-- Does the first list occur at the head of the second list? -/
def startsWithChars : List Char → List Char → Bool
  | [], _ => true
  | _ :: _, [] => false
  | a :: as, b :: bs => a = b && startsWithChars as bs

/-- Does the needle occur contiguously anywhere in the haystack? -/
def occursIn (needle : List Char) : List Char → Bool
  | [] => needle.isEmpty
  | b :: bs => startsWithChars needle (b :: bs) || occursIn needle bs

/-- Python membership test for strings: needle in hay. -/
def strContains (hay needle : String) : Bool :=
  occursIn needle.toList hay.toList

/-- Python str.lower, restricted to ASCII case mapping. -/
def pyLower (s : String) : String := String.mk (s.toList.map Char.toLower)

/-- Python round(q, 3): round to the nearest thousandth. -/
def round3 (q : ℚ) : ℚ := ((round (q * 1000) : ℤ) : ℚ) / 1000

/-! ## Orchestrator probe: check_k8s_pod_status (source lines 53-106) -/

/-- One entry of a pod condition list, with the two keys the source reads
(condition is a dict; the source indexes both keys directly). -/
structure PodCondition where
  type : String
  status : String
deriving DecidableEq, Repr

/-- One parsed pod record. The source reads metadata.name directly and
uses .get with defaults for phase and conditions, hence the Option fields. -/
structure PodRecord where
  name : String
  phase : Option String
  conditions : Option (List PodCondition)
deriving DecidableEq, Repr

/-- One entry of pod_details: {name, phase, ready}. -/
structure PodDetail where
  name : String
  phase : String
  ready : Bool
deriving DecidableEq, Repr

/-- The dict returned by check_k8s_pod_status. Fields that a given return
path leaves out of the dict are none. The NOT_IN_K8S path returns a pods
key instead of the counting fields. -/
structure PodStatusOutcome where
  status : String
  total_pods : Option Nat := none
  running_pods : Option Nat := none
  ready_pods : Option Nat := none
  pod_details : Option (List PodDetail) := none
  pods : Option (List PodDetail) := none
  error : Option String := none
deriving DecidableEq, Repr

/-- Result of json.loads on the kubectl stdout: either a parsed document
whose items key yields a pod list (missing items defaults to []), or a
JSONDecodeError. -/
inductive JsonParsed where
  | items (pods : List PodRecord)
  | malformed (msg : String)
deriving DecidableEq, Repr

/-- Result of the subprocess.run kubectl invocation: it ran and produced an
exit code, stdout and stderr; or it hit TimeoutExpired; or some other
exception was raised (covering the final except branch). -/
inductive KubectlOutcome where
  | ran (returncode : Int) (stdout : JsonParsed) (stderr : String)
  | timedOut
  | raised (msg : String)
deriving DecidableEq, Repr

/-- The inner loop over a pod condition list: ready_condition becomes True
at the first condition with type Ready and status True, then the loop
breaks. -/
def findReady : List PodCondition → Bool
  | [] => false
  | c :: rest => if c.type == "Ready" && c.status == "True" then true else findReady rest

/-- The loop over pods accumulating running_pods, ready_pods and
pod_details (source lines 78-97). -/
def podLoop : List PodRecord → Nat → Nat → List PodDetail → Nat × Nat × List PodDetail
  | [], running, ready, details => (running, ready, details)
  | pod :: rest, running, ready, details =>
      let phase := pod.phase.getD "Unknown"
      let ready_condition := findReady (pod.conditions.getD [])
      podLoop rest
        (if phase == "Running" then running + 1 else running)
        (if ready_condition then ready + 1 else ready)
        (details ++ [⟨pod.name, phase, ready_condition⟩])

/-- check_k8s_pod_status: NOT_IN_K8S short-circuit, kubectl invocation and
its error taxonomy, and the success-path pod counting. -/
def check_k8s_pod_status (k8s_mode : Bool) (res : KubectlOutcome) : PodStatusOutcome :=
  if k8s_mode = false then
    { status := "NOT_IN_K8S", pods := some [] }
  else
    match res with
    | .ran returncode stdout stderr =>
        if returncode ≠ 0 then
          { status := "KUBECTL_ERROR", error := some stderr }
        else
          match stdout with
          | .malformed msg => { status := "JSON_ERROR", error := some msg }
          | .items pods =>
              let counts := podLoop pods 0 0 []
              { status := "SUCCESS"
                total_pods := some pods.length
                running_pods := some counts.1
                ready_pods := some counts.2.1
                pod_details := some counts.2.2 }
    | .timedOut => { status := "TIMEOUT", error := some "kubectl command timed out" }
    | .raised msg => { status := "ERROR", error := some msg }

/-! ## Content validator: check_wisecow_functionality (source lines 108-143) -/

/-- The dict returned by check_wisecow_functionality; on the exception path
only functionality and error are present. -/
structure FunctionalityOutcome where
  http_status : Option Nat := none
  response_size : Option Nat := none
  content_type : Option String := none
  fortune_detected : Option Bool := none
  cow_detected : Option Bool := none
  html_format : Option Bool := none
  functionality : String
  error : Option String := none
deriving DecidableEq, Repr

/-- What the second GET request yields: a response with status, decoded
body text and an optional content-type header, or a raised exception. -/
inductive WisecowFetch where
  | response (status : Nat) (body : String) (contentType : Option String)
  | raised (msg : String)
deriving DecidableEq, Repr

/-- check_wisecow_functionality: extracts status, size and content type,
computes the three content markers, and classifies functionality. The body
string is the already-decoded response text (decode with errors=ignore is
part of the modelled outside world). Note the source lowercases the body
for the fortune and cow markers but searches the raw body for the pre
tags. -/
def check_wisecow_functionality (fetch : WisecowFetch) : FunctionalityOutcome :=
  match fetch with
  | .response status body contentType =>
      let content_lower := pyLower body
      let fortune_detected := strContains content_lower "fortune"
      let cow_detected := strContains content_lower "cow" || strContains content_lower "moo"
      let html_format := strContains body "<pre>" && strContains body "</pre>"
      { http_status := some status
        response_size := some body.length
        content_type := some (contentType.getD "unknown")
        fortune_detected := some fortune_detected
        cow_detected := some cow_detected
        html_format := some html_format
        functionality :=
          if status == 200 && fortune_detected && cow_detected && html_format
          then "HEALTHY" else "DEGRADED" }
  | .raised msg => { functionality := "FAILED", error := some msg }

/-! ## HTTP probe: check_http_connectivity (source lines 29-51) -/

/-- What the first GET request yields: a response (with status and elapsed
wall-clock time), an HTTPError carrying a status code (also timed from
start_time), a URLError, or any other exception. -/
inductive HttpFetch where
  | response (status : Nat) (elapsed : ℚ)
  | httpError (code : Nat) (elapsed : ℚ)
  | urlError (msg : String)
  | otherError (msg : String)
deriving DecidableEq, Repr

/-- check_http_connectivity: returns (success, status string, latency).
A URLError whose text contains timeout (lowercased) is classified TIMEOUT. -/
def check_http_connectivity : HttpFetch → Bool × String × ℚ
  | .response status elapsed => (true, toString status, elapsed)
  | .httpError code elapsed => (true, toString code, elapsed)
  | .urlError msg =>
      if strContains (pyLower msg) "timeout" then (false, "TIMEOUT", 0)
      else (false, "URL_ERROR: " ++ msg, 0)
  | .otherError msg => (false, "REQUEST_ERROR: " ++ msg, 0)

/-! ## Aggregator: run_comprehensive_check and _generate_recommendations
(source lines 145-222) -/

/-- The http_connectivity entry of the results dict (all three keys always
present). -/
structure HttpCheck where
  success : Bool
  status : String
  response_time : ℚ
deriving DecidableEq, Repr

/-- The comprehensive results record (the keys of the results dict the
claims are about; pod_status is present only in k8s mode). -/
structure HealthResults where
  k8s_mode : Bool
  http_connectivity : HttpCheck
  wisecow_functionality : FunctionalityOutcome
  pod_status : Option PodStatusOutcome
  overall_health : String
  recommendations : List String
deriving DecidableEq, Repr

/-- Models results.checks.get with an absent pod_status key: an empty dict,
whose .get never equals any real status string. The empty string stands for
the absent status value. -/
def emptyPodStatusDict : PodStatusOutcome := { status := "" }

/-- _generate_recommendations: the five ordered checks appending at most
one message each (the DEGRADED/FAILED pair is one if/elif chain, as is the
ready-pod pair). -/
def _generate_recommendations (k8s_mode : Bool) (http : HttpCheck)
    (wisecow : FunctionalityOutcome) (pod : Option PodStatusOutcome) : List String :=
  (if http.success = false
    then ["HTTP connectivity failed - check if application is running"] else []) ++
  (if wisecow.functionality == "DEGRADED"
    then ["Wisecow functionality degraded - check fortune/cowsay installation"]
    else if wisecow.functionality == "FAILED"
    then ["Wisecow functionality failed - check application logs"] else []) ++
  (if http.response_time > 5
    then ["High response time (" ++ toString http.response_time ++
          "s) - check application performance"] else []) ++
  (if k8s_mode then
    let pod_status := pod.getD emptyPodStatusDict
    if pod_status.status == "SUCCESS" then
      let ready_pods := pod_status.ready_pods.getD 0
      let total_pods := pod_status.total_pods.getD 0
      if ready_pods == 0
      then ["No ready pods - check pod logs and readiness probes"]
      else if ready_pods < total_pods
      then ["Only " ++ toString ready_pods ++ "/" ++ toString total_pods ++
            " pods ready - check failing pods"]
      else []
    else []
  else [])

/-- run_comprehensive_check: runs the three checks (pod status only in k8s
mode), stores the rounded latency, derives overall_health and the
recommendation list. -/
def run_comprehensive_check (k8s_mode : Bool) (hres : HttpFetch)
    (wres : WisecowFetch) (kres : KubectlOutcome) : HealthResults :=
  let h := check_http_connectivity hres
  let http : HttpCheck := { success := h.1, status := h.2.1, response_time := round3 h.2.2 }
  let wisecow := check_wisecow_functionality wres
  let pod : Option PodStatusOutcome :=
    if k8s_mode then some (check_k8s_pod_status k8s_mode kres) else none
  let overall0 : Bool := http.success && (wisecow.functionality == "HEALTHY")
  let overall : Bool :=
    if k8s_mode then
      let pod_status := pod.getD emptyPodStatusDict
      if pod_status.status == "SUCCESS" then
        overall0 && decide (pod_status.ready_pods.getD 0 > 0)
      else overall0
    else overall0
  { k8s_mode := k8s_mode
    http_connectivity := http
    wisecow_functionality := wisecow
    pod_status := pod
    overall_health := if overall then "HEALTHY" else "UNHEALTHY"
    recommendations := _generate_recommendations k8s_mode http wisecow pod }

/-! ## Reporter: the quiet-mode branch of main (source lines 279-330) -/

/-- The exit-code mapping shared by the quiet and normal branches of main
(lines 314 and 330). -/
def exit_code (results : HealthResults) : Nat :=
  if results.overall_health = "HEALTHY" then 0 else 1

/-- The progress lines run_comprehensive_check prints unconditionally, in
execution order (lines 157, 166, 172). -/
def progressPrints (k8s_mode : Bool) : List String :=
  ["Checking HTTP connectivity...", "Checking Wisecow functionality..."] ++
    (if k8s_mode then ["Checking Kubernetes pod status..."] else [])

/-- The quiet-mode run of main: k8s mode is the explicit flag or the
auto-detection (in_pod models the service-account path existing), and the
returned pair is the full stdout line sequence and the exit code. -/
def main_quiet (flag_k8s in_pod : Bool) (hres : HttpFetch)
    (wres : WisecowFetch) (kres : KubectlOutcome) : List String × Nat :=
  let k8s_mode := flag_k8s || in_pod
  let auto : List String :=
    if flag_k8s = false ∧ in_pod = true
    then ["Kubernetes mode auto-detected (running in pod)"] else []
  let results := run_comprehensive_check k8s_mode hres wres kres
  (auto ++ progressPrints k8s_mode ++ [results.overall_health], exit_code results)

/-! ## Spec-side definition for the C3 refinement -/

/-- The marker computation as the spec words it: a case-insensitive
substring search for the marker in the body. Stated from the spec, to be
compared with the markers check_wisecow_functionality computes. -/
def specCaseInsensitiveSearch (body marker : String) : Bool :=
  strContains (pyLower body) (pyLower marker)

/-! ## Predicates naming the per-pod tests of the counting loop -/

/-- The phase test of the counting loop: phase equals Running. -/
def runningTest (p : PodRecord) : Bool := (p.phase.getD "Unknown") == "Running"

/-- The readiness test of the counting loop: the condition scan succeeds. -/
def readyTest (p : PodRecord) : Bool := findReady (p.conditions.getD [])

/-- The pod_details entry the loop appends for one pod. -/
def detailOf (p : PodRecord) : PodDetail :=
  ⟨p.name, p.phase.getD "Unknown", readyTest p⟩

/-! ## Helper lemmas -/

lemma verdict_eq_healthy (b : Bool) :
    ((if b then "HEALTHY" else "UNHEALTHY") : String) = "HEALTHY" ↔ b = true := by
  cases b <;> simp

lemma verdict_string_cases (b : Bool) :
    ((if b then "HEALTHY" else "UNHEALTHY") : String) = "HEALTHY" ∨
    ((if b then "HEALTHY" else "UNHEALTHY") : String) = "UNHEALTHY" := by
  cases b <;> simp

lemma findReady_eq_any (cs : List PodCondition) :
    findReady cs = cs.any (fun c => c.type == "Ready" && c.status == "True") := by
  induction cs with
  | nil => rfl
  | cons c rest ih =>
      by_cases h : (c.type == "Ready" && c.status == "True") = true <;>
        simp [findReady, h, ih]

lemma podLoop_spec (items : List PodRecord) (running ready : Nat) (details : List PodDetail) :
    podLoop items running ready details =
      (running + items.countP runningTest,
       ready + items.countP readyTest,
       details ++ items.map detailOf) := by
  induction items generalizing running ready details with
  | nil => simp [podLoop]
  | cons p rest ih =>
      simp only [podLoop, ih, List.countP_cons, List.map_cons]
      by_cases h1 : ((p.phase.getD "Unknown") == "Running") = true <;>
        by_cases h2 : findReady (p.conditions.getD []) = true <;>
        simp [h1, h2, runningTest, readyTest, detailOf, Prod.ext_iff] <;> omega

lemma check_k8s_pod_status_success (pods : List PodRecord) (stderr : String) :
    check_k8s_pod_status true (.ran 0 (.items pods) stderr) =
      { status := "SUCCESS"
        total_pods := some pods.length
        running_pods := some (pods.countP runningTest)
        ready_pods := some (pods.countP readyTest)
        pod_details := some (pods.map detailOf) } := by
  simp [check_k8s_pod_status, podLoop_spec]

lemma pod_status_success_shape (k8s : Bool) (kres : KubectlOutcome)
    (h : (check_k8s_pod_status k8s kres).status = "SUCCESS") :
    ∃ pods : List PodRecord,
      (check_k8s_pod_status k8s kres).total_pods = some pods.length ∧
      (check_k8s_pod_status k8s kres).running_pods = some (pods.countP runningTest) ∧
      (check_k8s_pod_status k8s kres).ready_pods = some (pods.countP readyTest) ∧
      (check_k8s_pod_status k8s kres).pod_details = some (pods.map detailOf) := by
  cases k8s with
  | false => simp [check_k8s_pod_status] at h
  | true =>
      cases kres with
      | ran rc stdout stderr =>
          by_cases hrc : rc ≠ 0
          · simp [check_k8s_pod_status, hrc] at h
          · push_neg at hrc
            subst hrc
            cases stdout with
            | malformed msg => simp [check_k8s_pod_status] at h
            | items pods =>
                exact ⟨pods, by simp [check_k8s_pod_status_success]⟩
      | timedOut => simp [check_k8s_pod_status] at h
      | raised msg => simp [check_k8s_pod_status] at h

lemma wisecow_functionality_cases (wres : WisecowFetch) :
    (check_wisecow_functionality wres).functionality = "HEALTHY" ∨
    (check_wisecow_functionality wres).functionality = "DEGRADED" ∨
    (check_wisecow_functionality wres).functionality = "FAILED" := by
  cases wres with
  | response status body contentType =>
      by_cases h : (status == 200 && strContains (pyLower body) "fortune" &&
          (strContains (pyLower body) "cow" || strContains (pyLower body) "moo") &&
          (strContains body "<pre>" && strContains body "</pre>")) = true <;>
        simp [check_wisecow_functionality, h]
  | raised msg => simp [check_wisecow_functionality]

lemma overall_health_healthy_iff (k8s : Bool) (hres : HttpFetch)
    (wres : WisecowFetch) (kres : KubectlOutcome) :
    (run_comprehensive_check k8s hres wres kres).overall_health = "HEALTHY" ↔
      ((check_http_connectivity hres).1 = true ∧
       (check_wisecow_functionality wres).functionality = "HEALTHY" ∧
       (k8s = false ∨ (check_k8s_pod_status k8s kres).status ≠ "SUCCESS" ∨
        0 < (check_k8s_pod_status k8s kres).ready_pods.getD 0)) := by
  cases k8s with
  | false => simp [run_comprehensive_check, verdict_eq_healthy, and_assoc]
  | true =>
      by_cases hs : (check_k8s_pod_status true kres).status = "SUCCESS"
      · simp [run_comprehensive_check, hs, verdict_eq_healthy, and_assoc]
        intro _ _
        omega
      · simp [run_comprehensive_check, hs, verdict_eq_healthy, and_assoc]

lemma overall_health_cases (k8s : Bool) (hres : HttpFetch) (wres : WisecowFetch)
    (kres : KubectlOutcome) :
    (run_comprehensive_check k8s hres wres kres).overall_health = "HEALTHY" ∨
    (run_comprehensive_check k8s hres wres kres).overall_health = "UNHEALTHY" :=
  verdict_string_cases _

lemma recs_nil_iff (k8s_mode : Bool) (http : HttpCheck) (w : FunctionalityOutcome)
    (pod : Option PodStatusOutcome) :
    _generate_recommendations k8s_mode http w pod = [] ↔
      (http.success = true ∧ w.functionality ≠ "DEGRADED" ∧ w.functionality ≠ "FAILED" ∧
       http.response_time ≤ 5 ∧
       (k8s_mode = true → (pod.getD emptyPodStatusDict).status = "SUCCESS" →
         ((pod.getD emptyPodStatusDict).ready_pods.getD 0 ≠ 0 ∧
          ¬ ((pod.getD emptyPodStatusDict).ready_pods.getD 0 <
             (pod.getD emptyPodStatusDict).total_pods.getD 0)))) := by
  unfold _generate_recommendations
  by_cases h1 : http.success = false <;>
    by_cases h2 : w.functionality = "DEGRADED" <;>
    by_cases h3 : w.functionality = "FAILED" <;>
    by_cases h4 : http.response_time > 5 <;>
    cases k8s_mode <;>
    by_cases h5 : (pod.getD emptyPodStatusDict).status = "SUCCESS" <;>
    by_cases h6 : (pod.getD emptyPodStatusDict).ready_pods.getD 0 = 0 <;>
    by_cases h7 : (pod.getD emptyPodStatusDict).ready_pods.getD 0 <
        (pod.getD emptyPodStatusDict).total_pods.getD 0 <;>
    simp_all

lemma run_http_connectivity (k8s : Bool) (hres : HttpFetch) (wres : WisecowFetch)
    (kres : KubectlOutcome) :
    (run_comprehensive_check k8s hres wres kres).http_connectivity =
      { success := (check_http_connectivity hres).1
        status := (check_http_connectivity hres).2.1
        response_time := round3 (check_http_connectivity hres).2.2 } := rfl

lemma run_pod (k8s : Bool) (hres : HttpFetch) (wres : WisecowFetch)
    (kres : KubectlOutcome) :
    (run_comprehensive_check k8s hres wres kres).pod_status =
      (if k8s then some (check_k8s_pod_status k8s kres) else none) := rfl

lemma run_recommendations (k8s : Bool) (hres : HttpFetch) (wres : WisecowFetch)
    (kres : KubectlOutcome) :
    (run_comprehensive_check k8s hres wres kres).recommendations =
      _generate_recommendations k8s
        (run_comprehensive_check k8s hres wres kres).http_connectivity
        (check_wisecow_functionality wres)
        (run_comprehensive_check k8s hres wres kres).pod_status := rfl

/-! ## Claim theorems -/

/-- Claim C1: for every combination of the three check outcomes, the
overall verdict of run_comprehensive_check is HEALTHY iff the HTTP probe
returned success, the functionality outcome is HEALTHY, and (orchestrator
mode is inactive, or the pod-status outcome is not SUCCESS, or readyPods
is positive). -/
theorem claim_C1_verdict (k8s : Bool) (hres : HttpFetch) (wres : WisecowFetch)
    (kres : KubectlOutcome) :
    (run_comprehensive_check k8s hres wres kres).overall_health = "HEALTHY" ↔
      ((check_http_connectivity hres).1 = true ∧
       (check_wisecow_functionality wres).functionality = "HEALTHY" ∧
       (k8s = false ∨ (check_k8s_pod_status k8s kres).status ≠ "SUCCESS" ∨
        0 < (check_k8s_pod_status k8s kres).ready_pods.getD 0)) :=
  overall_health_healthy_iff k8s hres wres kres

/-- Claim C2: for every combination of check outcomes, the recommendation
list is empty iff the verdict is HEALTHY, the stored latency is at most
5.0 seconds, and (orchestrator mode is inactive, or readyPods equals
totalPods with totalPods positive, or the pod-status outcome is not
SUCCESS). -/
theorem claim_C2_recommendations (k8s : Bool) (hres : HttpFetch) (wres : WisecowFetch)
    (kres : KubectlOutcome) :
    (run_comprehensive_check k8s hres wres kres).recommendations = [] ↔
      ((run_comprehensive_check k8s hres wres kres).overall_health = "HEALTHY" ∧
       (run_comprehensive_check k8s hres wres kres).http_connectivity.response_time ≤ 5 ∧
       (k8s = false ∨
        ((check_k8s_pod_status k8s kres).ready_pods.getD 0 =
           (check_k8s_pod_status k8s kres).total_pods.getD 0 ∧
         0 < (check_k8s_pod_status k8s kres).total_pods.getD 0) ∨
        (check_k8s_pod_status k8s kres).status ≠ "SUCCESS")) := by
  rw [run_recommendations, recs_nil_iff, overall_health_healthy_iff, run_pod,
    run_http_connectivity]
  rcases wisecow_functionality_cases wres with hf | hf | hf <;>
    cases k8s with
  | false => simp [hf]
  | true =>
      by_cases hs : (check_k8s_pod_status true kres).status = "SUCCESS"
      · obtain ⟨pods, htot, hrun, hred, hdet⟩ := pod_status_success_shape true kres hs
        have hle : pods.countP readyTest ≤ pods.length := List.countP_le_length readyTest
        simp only [if_true, Option.getD_some, htot, hred]
        generalize hn : pods.length = n at *
        generalize hr : pods.countP readyTest = r at *
        by_cases hsucc : (check_http_connectivity hres).1 = true <;>
          by_cases ht : round3 (check_http_connectivity hres).2.2 ≤ 5 <;>
          simp [hf, hs, hsucc, ht] <;> omega
      · simp [hf, hs]

/-- Claim C3, counterexample: the pre-tag marker is not computed by
case-insensitive search. On the body <PRE>fortune cow</PRE> the validator
reports html_format false, although a case-insensitive search finds both
tags. -/
theorem claim_C3_counterexample :
    (check_wisecow_functionality (.response 200 "<PRE>fortune cow</PRE>" none)).html_format =
      some false ∧
    specCaseInsensitiveSearch "<PRE>fortune cow</PRE>" "<pre>" = true ∧
    specCaseInsensitiveSearch "<PRE>fortune cow</PRE>" "</pre>" = true := by decide

/-- Claim C3, amended: the fortune and cow markers are computed by
case-insensitive substring search (fortune; cow or moo), but the HTML
marker is a case-sensitive search of the raw body for the literal
lowercase opening and closing pre tags. -/
theorem claim_C3_markers (status : Nat) (body : String) (contentType : Option String) :
    (check_wisecow_functionality (.response status body contentType)).fortune_detected =
      some (specCaseInsensitiveSearch body "fortune") ∧
    (check_wisecow_functionality (.response status body contentType)).cow_detected =
      some (specCaseInsensitiveSearch body "cow" || specCaseInsensitiveSearch body "moo") ∧
    (check_wisecow_functionality (.response status body contentType)).html_format =
      some (strContains body "<pre>" && strContains body "</pre>") := by
  have h1 : pyLower "fortune" = "fortune" := by decide
  have h2 : pyLower "cow" = "cow" := by decide
  have h3 : pyLower "moo" = "moo" := by decide
  simp [check_wisecow_functionality, specCaseInsensitiveSearch, h1, h2, h3]

/-- Claim C4, counterexample: on the KUBECTL_ERROR path the pod-status
outcome carries neither totalPods nor podDetails, and on the FAILED path
the functionality outcome carries no responseSize, so outcome records
handed to the aggregator are not always fully populated. -/
theorem claim_C4_counterexample :
    (check_k8s_pod_status true (.ran 1 (.items []) "boom")).status = "KUBECTL_ERROR" ∧
    (check_k8s_pod_status true (.ran 1 (.items []) "boom")).total_pods = none ∧
    (check_k8s_pod_status true (.ran 1 (.items []) "boom")).pod_details = none ∧
    (check_wisecow_functionality (.raised "connection reset")).response_size = none := by
  decide

/-- Claim C4, amended: outcome records are fully populated on the success
paths only; on the error paths (KUBECTL_ERROR, TIMEOUT, JSON_ERROR, ERROR
for the pod probe; FAILED for the content validator) the record carries
only its classification field and an error description, and every other
field is absent. -/
theorem claim_C4_population (k8s : Bool) (kres : KubectlOutcome) (wres : WisecowFetch) :
    ((check_k8s_pod_status k8s kres).status = "SUCCESS" →
      (check_k8s_pod_status k8s kres).total_pods.isSome ∧
      (check_k8s_pod_status k8s kres).running_pods.isSome ∧
      (check_k8s_pod_status k8s kres).ready_pods.isSome ∧
      (check_k8s_pod_status k8s kres).pod_details.isSome) ∧
    ((check_k8s_pod_status k8s kres).status = "KUBECTL_ERROR" ∨
        (check_k8s_pod_status k8s kres).status = "TIMEOUT" ∨
        (check_k8s_pod_status k8s kres).status = "JSON_ERROR" ∨
        (check_k8s_pod_status k8s kres).status = "ERROR" →
      (check_k8s_pod_status k8s kres).error.isSome ∧
      (check_k8s_pod_status k8s kres).total_pods = none ∧
      (check_k8s_pod_status k8s kres).running_pods = none ∧
      (check_k8s_pod_status k8s kres).ready_pods = none ∧
      (check_k8s_pod_status k8s kres).pod_details = none) ∧
    ((check_wisecow_functionality wres).functionality = "FAILED" →
      (check_wisecow_functionality wres).error.isSome ∧
      (check_wisecow_functionality wres).http_status = none ∧
      (check_wisecow_functionality wres).response_size = none ∧
      (check_wisecow_functionality wres).content_type = none ∧
      (check_wisecow_functionality wres).fortune_detected = none ∧
      (check_wisecow_functionality wres).cow_detected = none ∧
      (check_wisecow_functionality wres).html_format = none) ∧
    ((check_wisecow_functionality wres).functionality ≠ "FAILED" →
      (check_wisecow_functionality wres).http_status.isSome ∧
      (check_wisecow_functionality wres).response_size.isSome ∧
      (check_wisecow_functionality wres).content_type.isSome ∧
      (check_wisecow_functionality wres).fortune_detected.isSome ∧
      (check_wisecow_functionality wres).cow_detected.isSome ∧
      (check_wisecow_functionality wres).html_format.isSome) := by
  refine ⟨?_, ?_, ?_, ?_⟩
  · intro h
    obtain ⟨pods, htot, hrun, hred, hdet⟩ := pod_status_success_shape k8s kres h
    simp [htot, hrun, hred, hdet]
  · intro h
    cases k8s with
    | false => simp [check_k8s_pod_status] at h
    | true =>
        cases kres with
        | ran rc stdout stderr =>
            by_cases hrc : rc ≠ 0
            · simp [check_k8s_pod_status, hrc]
            · push_neg at hrc
              subst hrc
              cases stdout with
              | malformed msg => simp [check_k8s_pod_status]
              | items pods => simp [check_k8s_pod_status_success] at h
        | timedOut => simp [check_k8s_pod_status]
        | raised msg => simp [check_k8s_pod_status]
  · intro h
    cases wres with
    | response status body contentType =>
        by_cases hc : (status == 200 && strContains (pyLower body) "fortune" &&
            (strContains (pyLower body) "cow" || strContains (pyLower body) "moo") &&
            (strContains body "<pre>" && strContains body "</pre>")) = true <;>
          simp [check_wisecow_functionality, hc] at h
    | raised msg => simp [check_wisecow_functionality]
  · intro h
    cases wres with
    | response status body contentType => simp [check_wisecow_functionality]
    | raised msg => simp [check_wisecow_functionality] at h

/-- Claim C4, witness: the amended population statement evaluated on the
TIMEOUT pod path and the FAILED validator path. -/
theorem claim_C4_population_witness :
    (check_k8s_pod_status true KubectlOutcome.timedOut).error.isSome = true ∧
    (check_k8s_pod_status true KubectlOutcome.timedOut).total_pods = none ∧
    (check_wisecow_functionality (.raised "boom")).error.isSome = true := by
  have h := claim_C4_population true KubectlOutcome.timedOut (.raised "boom")
  exact ⟨(h.2.1 (Or.inr (Or.inl rfl))).1, (h.2.1 (Or.inr (Or.inl rfl))).2.1,
    (h.2.2.1 rfl).1⟩

/-- Claim C5: on a successful orchestrator query over any pod list,
totalPods is the record count, runningPods counts records with phase
Running, readyPods counts records whose condition list contains a Ready
condition with status True (the scanning loop is equivalent to that
containment test), and podDetails preserves the original listing order. -/
theorem claim_C5_pod_counts (pods : List PodRecord) (stderr : String) :
    (check_k8s_pod_status true (.ran 0 (.items pods) stderr)).status = "SUCCESS" ∧
    (check_k8s_pod_status true (.ran 0 (.items pods) stderr)).total_pods = some pods.length ∧
    (check_k8s_pod_status true (.ran 0 (.items pods) stderr)).running_pods =
      some (pods.countP (fun p => (p.phase.getD "Unknown") == "Running")) ∧
    (check_k8s_pod_status true (.ran 0 (.items pods) stderr)).ready_pods =
      some (pods.countP (fun p => (p.conditions.getD []).any
        (fun c => c.type == "Ready" && c.status == "True"))) ∧
    (check_k8s_pod_status true (.ran 0 (.items pods) stderr)).pod_details =
      some (pods.map (fun p => ⟨p.name, p.phase.getD "Unknown",
        (p.conditions.getD []).any (fun c => c.type == "Ready" && c.status == "True")⟩)) := by
  have h1 : runningTest = fun p => (p.phase.getD "Unknown") == "Running" := rfl
  have h2 : readyTest = fun p => (p.conditions.getD []).any
      (fun c => c.type == "Ready" && c.status == "True") := by
    funext p
    exact findReady_eq_any _
  have h3 : detailOf = fun p => (⟨p.name, p.phase.getD "Unknown",
      (p.conditions.getD []).any (fun c => c.type == "Ready" && c.status == "True")⟩ : PodDetail) := by
    funext p
    simp [detailOf, readyTest, findReady_eq_any]
  simp [check_k8s_pod_status_success, h1, h2, h3]

/-- Claim C6: the HTTP probe returns success with the stringified numeric
status and the elapsed time on any response (including HTTPError
responses); TIMEOUT with zero latency on a timeout-classified URLError;
and a tagged error string embedding the failure description, with zero
latency, on any other transport failure. -/
theorem claim_C6_http_probe :
    (∀ status : Nat, ∀ elapsed : ℚ,
      check_http_connectivity (.response status elapsed) = (true, toString status, elapsed)) ∧
    (∀ code : Nat, ∀ elapsed : ℚ,
      check_http_connectivity (.httpError code elapsed) = (true, toString code, elapsed)) ∧
    (∀ msg : String, strContains (pyLower msg) "timeout" = true →
      check_http_connectivity (.urlError msg) = (false, "TIMEOUT", 0)) ∧
    (∀ msg : String, strContains (pyLower msg) "timeout" = false →
      check_http_connectivity (.urlError msg) = (false, "URL_ERROR: " ++ msg, 0)) ∧
    (∀ msg : String,
      check_http_connectivity (.otherError msg) = (false, "REQUEST_ERROR: " ++ msg, 0)) := by
  refine ⟨fun _ _ => rfl, fun _ _ => rfl, ?_, ?_, fun _ => rfl⟩
  · intro msg h
    simp [check_http_connectivity, h]
  · intro msg h
    simp [check_http_connectivity, h]

/-- Claim C6, witness: the probe evaluated on a timeout-classified and a
non-timeout URLError. -/
theorem claim_C6_http_probe_witness :
    check_http_connectivity (.urlError "timeout") = (false, "TIMEOUT", 0) ∧
    check_http_connectivity (.urlError "connection refused") =
      (false, "URL_ERROR: connection refused", 0) :=
  ⟨claim_C6_http_probe.2.2.1 "timeout" (by decide),
   claim_C6_http_probe.2.2.2.1 "connection refused" (by decide)⟩

/-- Claim C7, counterexample: in quiet mode the program does not print
only the verdict word; the progress lines of the check phase are printed
first. -/
theorem claim_C7_counterexample :
    main_quiet false false (.urlError "connection refused") (.raised "boom") .timedOut =
      (["Checking HTTP connectivity...", "Checking Wisecow functionality...", "UNHEALTHY"], 1) ∧
    (["Checking HTTP connectivity...", "Checking Wisecow functionality...",
      "UNHEALTHY"] : List String) ≠ ["UNHEALTHY"] := by
  decide

/-- Claim C7, amended: the exit code is 0 iff the verdict is HEALTHY and 1
iff it is UNHEALTHY; in quiet mode the program prints the check-phase
progress lines (preceded by the auto-detection notice when k8s mode was
auto-detected) and then the verdict word as its final line, exiting with
that code. -/
theorem claim_C7_exit_and_output (flag_k8s in_pod : Bool) (hres : HttpFetch)
    (wres : WisecowFetch) (kres : KubectlOutcome) :
    ((main_quiet flag_k8s in_pod hres wres kres).2 = 0 ↔
      (run_comprehensive_check (flag_k8s || in_pod) hres wres kres).overall_health = "HEALTHY") ∧
    ((main_quiet flag_k8s in_pod hres wres kres).2 = 1 ↔
      (run_comprehensive_check (flag_k8s || in_pod) hres wres kres).overall_health = "UNHEALTHY") ∧
    (main_quiet flag_k8s in_pod hres wres kres).1 =
      (if flag_k8s = false ∧ in_pod = true
        then ["Kubernetes mode auto-detected (running in pod)"] else []) ++
      progressPrints (flag_k8s || in_pod) ++
      [(run_comprehensive_check (flag_k8s || in_pod) hres wres kres).overall_health] := by
  refine ⟨?_, ?_, rfl⟩ <;>
    rcases overall_health_cases (flag_k8s || in_pod) hres wres kres with h | h <;>
    simp [main_quiet, exit_code, h]

/-- Claim C8, counterexample: responseSize is the character count of the
decoded body, not its byte length: a body of one two-byte character yields
responseSize 1. -/
theorem claim_C8_counterexample :
    (check_wisecow_functionality (.response 200 "é" none)).response_size = some 1 ∧
    ("é" : String).utf8ByteSize = 2 := by decide

/-- Claim C8, amended: responseSize equals the number of characters (code
points) of the decoded response body, and contentType equals the
content-type header, defaulting to unknown when the header is absent. -/
theorem claim_C8_size_and_type (status : Nat) (body : String) (contentType : Option String) :
    (check_wisecow_functionality (.response status body contentType)).response_size =
      some body.length ∧
    (check_wisecow_functionality (.response status body contentType)).content_type =
      some (contentType.getD "unknown") := by
  simp [check_wisecow_functionality]

/-- Claim C9: on every successful orchestrator query result, runningPods
and readyPods are at most totalPods and podDetails has exactly totalPods
entries. -/
theorem claim_C9_count_invariants (k8s : Bool) (kres : KubectlOutcome)
    (h : (check_k8s_pod_status k8s kres).status = "SUCCESS") :
    (check_k8s_pod_status k8s kres).running_pods.getD 0 ≤
      (check_k8s_pod_status k8s kres).total_pods.getD 0 ∧
    (check_k8s_pod_status k8s kres).ready_pods.getD 0 ≤
      (check_k8s_pod_status k8s kres).total_pods.getD 0 ∧
    ((check_k8s_pod_status k8s kres).pod_details.getD []).length =
      (check_k8s_pod_status k8s kres).total_pods.getD 0 := by
  obtain ⟨pods, htot, hrun, hred, hdet⟩ := pod_status_success_shape k8s kres h
  simp [htot, hrun, hred, hdet, List.countP_le_length]

/-- Claim C9, witness: the invariants evaluated on a one-pod success
result. -/
theorem claim_C9_count_invariants_witness :
    (check_k8s_pod_status true (.ran 0 (.items [⟨"p1", some "Running",
        some [⟨"Ready", "True"⟩]⟩]) "")).status = "SUCCESS" ∧
    ((check_k8s_pod_status true (.ran 0 (.items [⟨"p1", some "Running",
        some [⟨"Ready", "True"⟩]⟩]) "")).running_pods.getD 0 ≤
      (check_k8s_pod_status true (.ran 0 (.items [⟨"p1", some "Running",
        some [⟨"Ready", "True"⟩]⟩]) "")).total_pods.getD 0 ∧
    (check_k8s_pod_status true (.ran 0 (.items [⟨"p1", some "Running",
        some [⟨"Ready", "True"⟩]⟩]) "")).ready_pods.getD 0 ≤
      (check_k8s_pod_status true (.ran 0 (.items [⟨"p1", some "Running",
        some [⟨"Ready", "True"⟩]⟩]) "")).total_pods.getD 0 ∧
    ((check_k8s_pod_status true (.ran 0 (.items [⟨"p1", some "Running",
        some [⟨"Ready", "True"⟩]⟩]) "")).pod_details.getD []).length =
      (check_k8s_pod_status true (.ran 0 (.items [⟨"p1", some "Running",
        some [⟨"Ready", "True"⟩]⟩]) "")).total_pods.getD 0) :=
  ⟨by decide, claim_C9_count_invariants true (.ran 0 (.items [⟨"p1", some "Running",
    some [⟨"Ready", "True"⟩]⟩]) "") (by decide)⟩

/-- Claim C10: the verdict is independent of the measured latency: two
runs whose HTTP probes agree on the success flag, with identical
functionality and pod-status inputs, produce the same overall verdict. -/
theorem claim_C10_latency_independence (k8s : Bool) (hres1 hres2 : HttpFetch)
    (wres : WisecowFetch) (kres : KubectlOutcome)
    (heq : (check_http_connectivity hres1).1 = (check_http_connectivity hres2).1) :
    (run_comprehensive_check k8s hres1 wres kres).overall_health =
      (run_comprehensive_check k8s hres2 wres kres).overall_health := by
  cases k8s with
  | false => simp [run_comprehensive_check, heq]
  | true =>
      by_cases hs : (check_k8s_pod_status true kres).status = "SUCCESS" <;>
        simp [run_comprehensive_check, hs, heq]

/-- Claim C10, witness: two runs differing only in latency (1 second
versus 70 seconds) produce the same verdict. -/
theorem claim_C10_latency_independence_witness :
    (check_http_connectivity (.response 200 1)).1 = (check_http_connectivity (.response 200 70)).1 ∧
    (run_comprehensive_check false (.response 200 1) (.raised "x") .timedOut).overall_health =
      (run_comprehensive_check false (.response 200 70) (.raised "x") .timedOut).overall_health :=
  ⟨rfl, claim_C10_latency_independence false (.response 200 1) (.response 200 70)
    (.raised "x") .timedOut rfl⟩
